import Mathlib

/-!
Shallow embedding of the Heka GeoIp2 decoder plugin (`geoip_decoder.go`) and
proofs about its enrichment logic.  Go functions are translated to Lean
functions; the mutable `PipelinePack` message becomes explicit state passing;
external collaborators (the `geoip2` database readers, `net.ParseIP`,
`net.LookupIP`, `strconv.FormatFloat`) are oracles supplied in an environment
record.  A Go call that can panic (out-of-bounds indexing) is modelled by an
`Option` result, `none` standing for the panic.
-/

namespace GeoIp2

/-- A value held by a Heka message field.  `bytes` carries the raw bytes of a
JSON blob, modelled as the string whose characters are those bytes. -/
inductive FieldVal where
  | str (s : String)
  | bytes (b : String)
  | boolean (b : Bool)
  | int (i : Int)
  deriving DecidableEq

/-- One named field of a Heka message. -/
structure Field where
  name : String
  value : FieldVal
  deriving DecidableEq

/-- A Heka message: an ordered list of named fields.  The decoder only reads
named fields and appends new ones. -/
structure Message where
  fields : List Field
  deriving DecidableEq

/-- `pack.Message.GetFieldValue name`: the value of the first field with the
given name, or `none` when absent (Go returns `nil, false`). -/
def Message.getFieldValue (m : Message) (name : String) : Option FieldVal :=
  (m.fields.find? (fun f => f.name == name)).map Field.value

/-- `pack.Message.AddField` (via `gi2.AddField`): appends the fields to the
message.  `message.NewField` succeeds for every value type the decoder
produces (string, bytes, bool, int64), so the error arm of `AddField`, which
only logs, is unreachable here. -/
def Message.addFields (m : Message) (fs : List Field) : Message :=
  ⟨m.fields ++ fs⟩

/-- `geoip2.City` lookup record, restricted to the attributes the decoder
reads.  The Go `Names` maps return `""` for a missing language key, so they
are modelled as total functions into `String`.  Coordinates are `float64` in
Go; only exact comparison with `0.0` and opaque formatting are performed on
them, so they are modelled as rationals. -/
structure CityRecord where
  CountryIsoCode : String
  CountryNames : String → String
  CityNames : String → String
  Latitude : Rat
  Longitude : Rat

/-- `geoip2.ISP` lookup record.  `AutonomousSystemNumber` is a Go `uint`
(64-bit), modelled as a `Nat` below `2 ^ 64`. -/
structure ISPRecord where
  AutonomousSystemNumber : Nat
  AutonomousSystemOrganization : String
  ISP : String
  Organization : String
  deriving DecidableEq

/-- `geoip2.AnonymousIP` lookup record. -/
structure AnonymousIPRecord where
  IsAnonymous : Bool
  IsAnonymousVPN : Bool
  IsHostingProvider : Bool
  IsPublicProxy : Bool
  IsTorExitNode : Bool
  deriving DecidableEq

/-- `geoip2.ConnectionType` lookup record. -/
structure ConnectionTypeRecord where
  ConnectionType : String
  deriving DecidableEq

/-- An IP address; the decoder treats it as an opaque lookup key. -/
abbrev IP := Nat

/-- Result of one raw database query `db.X(ip)`: the Go call returns a record
pointer together with an error; `errored` is `true` exactly when
`err != nil` (in which case the returned record is whatever partially-filled
struct the reader produced, typically all zero values). -/
structure LookupResult (α : Type) where
  record : α
  errored : Bool

/-- Decoder state after `Init`: the configuration fields copied onto the
`GeoIp2Decoder` struct. -/
structure GeoIp2Decoder where
  SourceAddrFields : List String
  TargetField : String
  Language : String
  JSONObject : Bool
  DNSLookup : Bool

/-- External world of the decoder: the stdlib resolvers, the four optional
opened database handles (`none` models a nil handle), and float formatting
(`strconv.FormatFloat(x, 'g', 16, 32)`), which is opaque to every claim. -/
structure Env where
  parseIP : String → Option IP
  lookupIP : String → Except Unit (List IP)
  anon_db : Option (IP → LookupResult AnonymousIPRecord)
  city_db : Option (IP → LookupResult CityRecord)
  conn_db : Option (IP → LookupResult ConnectionTypeRecord)
  isp_db : Option (IP → LookupResult ISPRecord)
  formatFloat : Rat → String

/-- `GetData`: the `uint` arm of the source's type switch, reinterpreting a
64-bit unsigned value as the signed 64-bit `int` Heka records support
(two's-complement reinterpretation of `int(d)` on a 64-bit platform). -/
def GetData (v : Nat) : Int :=
  if v < 2 ^ 63 then (v : Int) else (v : Int) - 2 ^ 64

/-- The JSON blob `CreateMessageFieldsCity` builds in its `bytes.Buffer` when
`JSONObject` is set. -/
def cityJsonBlob (lon lat countrycode country city : String) : String :=
  "\x7b" ++ "\"location\":[" ++ lon ++ "," ++ lat ++ "]"
    ++ (if countrycode ≠ "" then ",\"country_code\":\"" ++ countrycode ++ "\"" else "")
    ++ (if country ≠ "" then ",\"country\":\"" ++ country ++ "\"" else "")
    ++ (if city ≠ "" then ",\"city\":\"" ++ city ++ "\"" else "")
    ++ "\x7d"

/-- `CreateMessageFieldsCity`: the fields appended to the message for a city
record.  `fmtFloat` stands for `strconv.FormatFloat(·, 'g', 16, 32)`. -/
def CreateMessageFieldsCity (gi2 : GeoIp2Decoder) (fmtFloat : Rat → String)
    (record : CityRecord) : List Field :=
  let countrycode := record.CountryIsoCode
  let country := record.CountryNames gi2.Language
  let city := record.CityNames gi2.Language
  let lat := fmtFloat record.Latitude
  let lon := fmtFloat record.Longitude
  if gi2.JSONObject then
    [⟨gi2.TargetField, FieldVal.bytes (cityJsonBlob lon lat countrycode country city)⟩]
  else
    [⟨gi2.TargetField ++ "_location", FieldVal.str (lat ++ ", " ++ lon)⟩]
    ++ (if countrycode ≠ "" then [⟨gi2.TargetField ++ "_country_code", FieldVal.str countrycode⟩] else [])
    ++ (if country ≠ "" then [⟨gi2.TargetField ++ "_country", FieldVal.str country⟩] else [])
    ++ (if city ≠ "" then [⟨gi2.TargetField ++ "_city", FieldVal.str city⟩] else [])

/-- The JSON blob `CreateMessageFieldsISP` builds in its `bytes.Buffer` when
`JSONObject` is set.  `strconv.FormatUint(uint64 asnum, 10)` is the decimal
representation `toString asnum`. -/
def ispJsonBlob (record : ISPRecord) : String :=
  "\x7b"
    ++ (if record.AutonomousSystemNumber ≠ 0 then
          "\"asnum\":" ++ toString record.AutonomousSystemNumber else "")
    ++ (if record.AutonomousSystemOrganization ≠ "" then
          ",\"asname\":\"" ++ record.AutonomousSystemOrganization ++ "\"" else "")
    ++ (if record.ISP ≠ "" then ",\"isp\":\"" ++ record.ISP ++ "\"" else "")
    ++ (if record.Organization ≠ "" then
          ",\"organization\":\"" ++ record.Organization ++ "\"" else "")
    ++ "\x7d"

/-- `CreateMessageFieldsISP`: the fields appended to the message for an ISP
record. -/
def CreateMessageFieldsISP (gi2 : GeoIp2Decoder) (record : ISPRecord) : List Field :=
  if gi2.JSONObject then
    [⟨gi2.TargetField, FieldVal.bytes (ispJsonBlob record)⟩]
  else
    (if record.AutonomousSystemNumber ≠ 0 then
        [⟨"asnum", FieldVal.int (GetData record.AutonomousSystemNumber)⟩] else [])
    ++ (if record.AutonomousSystemOrganization ≠ "" then
          [⟨"asname", FieldVal.str record.AutonomousSystemOrganization⟩] else [])
    ++ (if record.ISP ≠ "" then [⟨"isp", FieldVal.str record.ISP⟩] else [])
    ++ (if record.Organization ≠ "" then
          [⟨"organization", FieldVal.str record.Organization⟩] else [])

/-- The JSON blob `CreateMessageFieldsAnonymousIP` builds in its
`bytes.Buffer` when `JSONObject` is set. -/
def anonJsonBlob (record : AnonymousIPRecord) : String :=
  "\x7b"
    ++ (if record.IsAnonymous then ",\"anonymous_ip\": true," else "")
    ++ (if record.IsAnonymousVPN then ",\"anonymous_vpn\": true" else "")
    ++ (if record.IsHostingProvider then ",\"hosting_provider\": true" else "")
    ++ (if record.IsPublicProxy then ",\"public_proxy\": true" else "")
    ++ (if record.IsTorExitNode then ",\"tor_exit_node\": true" else "")
    ++ "\x7d"

/-- `CreateMessageFieldsAnonymousIP`: the fields appended to the message for
an anonymous-IP record. -/
def CreateMessageFieldsAnonymousIP (gi2 : GeoIp2Decoder)
    (record : AnonymousIPRecord) : List Field :=
  if gi2.JSONObject then
    [⟨gi2.TargetField, FieldVal.bytes (anonJsonBlob record)⟩]
  else
    (if record.IsAnonymous then [⟨"anonymous_ip", FieldVal.boolean true⟩] else [])
    ++ (if record.IsAnonymousVPN then [⟨"anonymous_vpn", FieldVal.boolean true⟩] else [])
    ++ (if record.IsHostingProvider then [⟨"hosting_provider", FieldVal.boolean true⟩] else [])
    ++ (if record.IsPublicProxy then [⟨"public_proxy", FieldVal.boolean true⟩] else [])
    ++ (if record.IsTorExitNode then [⟨"tor_exit_node", FieldVal.boolean true⟩] else [])

/-- The JSON blob `CreateMessageFieldsConnectionType` builds when
`JSONObject` is set. -/
def connJsonBlob (record : ConnectionTypeRecord) : String :=
  "\x7b"
    ++ (if record.ConnectionType ≠ "" then
          "\"connection_type\":\"" ++ record.ConnectionType ++ "\"" else "")
    ++ "\x7d"

/-- `CreateMessageFieldsConnectionType`: the fields appended to the message
for a connection-type record. -/
def CreateMessageFieldsConnectionType (gi2 : GeoIp2Decoder)
    (record : ConnectionTypeRecord) : List Field :=
  if gi2.JSONObject then
    [⟨gi2.TargetField, FieldVal.bytes (connJsonBlob record)⟩]
  else
    if record.ConnectionType ≠ "" then
      [⟨"connection_type", FieldVal.str record.ConnectionType⟩] else []

/-- `GeoIp2DecoderConfig`: the TOML-decoded configuration struct handed to
`Init`. -/
structure GeoIp2DecoderConfig where
  AnonDatabaseFile : String
  CityDatabaseFile : String
  ConnDatabaseFile : String
  ISPDatabaseFile : String
  SourceAddrFields : List String
  TargetField : String
  Language : String
  JSONObject : Bool
  DNSLookup : Bool

/-- Whether each of the four `geoip2.Open` calls would succeed for the
configured path (the filesystem side of initialization).  On failure
`geoip2.Open` returns a nil reader together with a non-nil error. -/
structure OpenEnv where
  anonOpen : Bool
  cityOpen : Bool
  connOpen : Bool
  ispOpen : Bool

/-- Everything observable about a run of `Init` on a freshly constructed
decoder (all database handles nil beforehand): the populated decoder struct,
which handles are non-nil afterwards, the sequence of `LogError` calls, and
whether the returned `err` is non-nil. -/
structure InitOutcome where
  decoder : GeoIp2Decoder
  anon_db : Bool
  city_db : Bool
  conn_db : Bool
  isp_db : Bool
  logs : List String
  err : Bool

/-- `Init`.  The two required-configuration checks only call `LogError`; the
shared `err` variable is assigned by each `geoip2.Open` attempt (overwriting
its previous value, whether or not a later attempt runs), is tested after
each of the four open sites, and its final value is the function's return
value. -/
def Init (config : GeoIp2DecoderConfig) (env : OpenEnv) : InitOutcome :=
  let logs0 : List String :=
    (if config.SourceAddrFields.length = 0 then
       ["At least one source address field must be specified."] else [])
    ++ (if config.TargetField = "" then ["target_field must be specified"] else [])
  let err1 := if config.AnonDatabaseFile ≠ "" then !env.anonOpen else false
  let logs1 := logs0 ++
    (if err1 then ["Could not open GeoIP2-Anonymous-IP database, skipping"] else [])
  let err2 := if config.CityDatabaseFile ≠ "" then !env.cityOpen else err1
  let logs2 := logs1 ++
    (if err2 then ["Could not open GeoIP2-City database, skipping"] else [])
  let err3 := if config.ConnDatabaseFile ≠ "" then !env.connOpen else err2
  let logs3 := logs2 ++
    (if err3 then ["Could not open GeoIP2-Connection-Type database, skipping"] else [])
  let err4 := if config.ISPDatabaseFile ≠ "" then !env.ispOpen else err3
  let logs4 := logs3 ++
    (if err4 then ["Could not open GeoIP2-ISP database, skipping"] else [])
  { decoder := ⟨config.SourceAddrFields, config.TargetField, config.Language,
                config.JSONObject, config.DNSLookup⟩
    anon_db := if config.AnonDatabaseFile ≠ "" then env.anonOpen else false
    city_db := if config.CityDatabaseFile ≠ "" then env.cityOpen else false
    conn_db := if config.ConnDatabaseFile ≠ "" then env.connOpen else false
    isp_db := if config.ISPDatabaseFile ≠ "" then env.ispOpen else false
    logs := logs4
    err := err4 }

/-- Outcome of the address-resolution block at the top of `Decode`'s loop
body. `outOfRange` models the Go runtime panic raised by `ips[0]` when
`net.LookupIP` returns a nil error together with an empty slice. -/
inductive ResolveOutcome where
  | noAddress
  | outOfRange
  | addr (ip : IP)
  deriving DecidableEq

/-- The `if gi2.DNSLookup` block of `Decode`: DNS mode takes `ips[0]` of the
`net.LookupIP` result (continuing on error), literal mode uses `net.ParseIP`
(continuing on nil). -/
def resolveHost (gi2 : GeoIp2Decoder) (env : Env) (host : String) : ResolveOutcome :=
  if gi2.DNSLookup then
    match env.lookupIP host with
    | .error _ => .noAddress
    | .ok [] => .outOfRange
    | .ok (ip :: _) => .addr ip
  else
    match env.parseIP host with
    | none => .noAddress
    | some ip => .addr ip

/-- The `gi2.anon_db != nil` block of `Decode`: on a successful lookup with at
least one flag set, mark `found` and append the anonymous-IP fields. -/
def runAnonBranch (gi2 : GeoIp2Decoder) (env : Env) (ip : IP) :
    Bool × Message → Bool × Message
  | (found, msg) =>
    match env.anon_db with
    | none => (found, msg)
    | some db =>
      let r := db ip
      if r.errored = false ∧ (r.record.IsAnonymous || r.record.IsAnonymousVPN ||
          r.record.IsHostingProvider || r.record.IsPublicProxy ||
          r.record.IsTorExitNode) = true then
        (true, msg.addFields (CreateMessageFieldsAnonymousIP gi2 r.record))
      else (found, msg)

/-- The `gi2.city_db != nil` block of `Decode`: on a successful lookup whose
longitude *and* latitude are both non-zero, mark `found` and append the city
fields. -/
def runCityBranch (gi2 : GeoIp2Decoder) (env : Env) (ip : IP) :
    Bool × Message → Bool × Message
  | (found, msg) =>
    match env.city_db with
    | none => (found, msg)
    | some db =>
      let r := db ip
      if r.errored = false ∧ (r.record.Longitude ≠ 0 ∧ r.record.Latitude ≠ 0) then
        (true, msg.addFields (CreateMessageFieldsCity gi2 env.formatFloat r.record))
      else (found, msg)

/-- The `gi2.conn_db != nil` block of `Decode`. -/
def runConnBranch (gi2 : GeoIp2Decoder) (env : Env) (ip : IP) :
    Bool × Message → Bool × Message
  | (found, msg) =>
    match env.conn_db with
    | none => (found, msg)
    | some db =>
      let r := db ip
      if r.errored = false ∧ r.record.ConnectionType ≠ "" then
        (true, msg.addFields (CreateMessageFieldsConnectionType gi2 r.record))
      else (found, msg)

/-- The `gi2.isp_db != nil` block of `Decode`.  Note the condition as written
in the source: `err != nil || (asnum != 0 || asname != "" || isp != "" ||
org != "")` — a lookup *error* also takes the branch, marking `found` and
passing the (typically zero-valued) record to `CreateMessageFieldsISP`. -/
def runIspBranch (gi2 : GeoIp2Decoder) (env : Env) (ip : IP) :
    Bool × Message → Bool × Message
  | (found, msg) =>
    match env.isp_db with
    | none => (found, msg)
    | some db =>
      let r := db ip
      if r.errored = true ∨ (r.record.AutonomousSystemNumber ≠ 0 ∨
          r.record.AutonomousSystemOrganization ≠ "" ∨ r.record.ISP ≠ "" ∨
          r.record.Organization ≠ "") then
        (true, msg.addFields (CreateMessageFieldsISP gi2 r.record))
      else (found, msg)

/-- The four database blocks of `Decode`'s loop body, in source order:
anonymous-IP, city, connection-type, ISP. -/
def runDatabases (gi2 : GeoIp2Decoder) (env : Env) (ip : IP)
    (st : Bool × Message) : Bool × Message :=
  runIspBranch gi2 env ip
    (runConnBranch gi2 env ip
      (runCityBranch gi2 env ip
        (runAnonBranch gi2 env ip st)))

/-- The `for _, hostAddr := range gi2.SourceAddrFields` loop of `Decode`.
`found` is the loop-external variable; a candidate whose value is absent or
not a string, or whose resolution soft-fails, `continue`s; after the database
blocks, `if found { break }`.  `none` models the `ips[0]` panic. -/
def decodeLoop (gi2 : GeoIp2Decoder) (env : Env) :
    List String → Bool → Message → Option Message
  | [], _found, msg => some msg
  | hostAddr :: rest, found, msg =>
    match msg.getFieldValue hostAddr with
    | some (FieldVal.str host) =>
      match resolveHost gi2 env host with
      | .noAddress => decodeLoop gi2 env rest found msg
      | .outOfRange => none
      | .addr ip =>
        let st := runDatabases gi2 env ip (found, msg)
        if st.1 then some st.2 else decodeLoop gi2 env rest st.1 st.2
    | _ => decodeLoop gi2 env rest found msg

/-- `Decode`: run the candidate-field loop starting with `found = false`;
`some m` is the single returned pack carrying message `m` (the decoder always
returns `packs = [pack]` and a nil error), `none` the `ips[0]` panic. -/
def Decode (gi2 : GeoIp2Decoder) (env : Env) (msg : Message) : Option Message :=
  decodeLoop gi2 env gi2.SourceAddrFields false msg

/-! ### A JSON fragment: values, a parser, and the spec's canonical
serialization.  The parser decides the spec's "bytes parse as a well-formed
JSON object"; the serializer is written from the spec's words (§4.4) for the
refinement comparison with the blobs the code concatenates. -/

/-- Values of the minimal JSON fragment the decoder's blobs can contain. -/
inductive JVal where
  | num (n : Nat)
  | str (s : String)
  | bool (b : Bool)
  deriving DecidableEq

/-- Drop leading spaces. -/
def skipSpaces : List Char → List Char
  | [] => []
  | c :: cs => if c = ' ' then skipSpaces cs else c :: cs

/-- Parse the remainder of a JSON string after its opening quote; the blobs
are built without any escaping, so neither has the grammar any. -/
def parseStringBody : List Char → Option (String × List Char)
  | [] => none
  | '"' :: cs => some ("", cs)
  | c :: cs =>
    match parseStringBody cs with
    | some (s, rest) => some (⟨c :: s.data⟩, rest)
    | none => none

/-- Parse a decimal natural number (one or more digits). -/
def parseNat (cs : List Char) : Option (Nat × List Char) :=
  let ds := cs.takeWhile Char.isDigit
  if ds.isEmpty then none
  else some (ds.foldl (fun n c => n * 10 + (c.toNat - 48)) 0, cs.dropWhile Char.isDigit)

/-- Parse one JSON value of the fragment. -/
def parseJVal : List Char → Option (JVal × List Char)
  | '"' :: cs =>
    match parseStringBody cs with
    | some (s, rest) => some (.str s, rest)
    | none => none
  | 't' :: 'r' :: 'u' :: 'e' :: cs => some (.bool true, cs)
  | 'f' :: 'a' :: 'l' :: 's' :: 'e' :: cs => some (.bool false, cs)
  | cs =>
    match parseNat cs with
    | some (n, rest) => some (.num n, rest)
    | none => none

/-- Parse `"key": value` members separated by commas, up to and including the
closing brace.  Fuel bounds the recursion; the top-level entry point supplies
more fuel than the input has characters. -/
def parseMembers : Nat → List Char → Option (List (String × JVal) × List Char)
  | 0, _ => none
  | fuel + 1, cs =>
    match skipSpaces cs with
    | [] => none
    | c :: cs1 =>
      if c = '"' then
        match parseStringBody cs1 with
        | some (key, cs2) =>
          match skipSpaces cs2 with
          | [] => none
          | c2 :: cs3 =>
            if c2 = ':' then
              match parseJVal (skipSpaces cs3) with
              | some (v, cs4) =>
                match skipSpaces cs4 with
                | [] => none
                | c3 :: cs5 =>
                  if c3 = ',' then
                    match parseMembers fuel cs5 with
                    | some (ms, cs6) => some ((key, v) :: ms, cs6)
                    | none => none
                  else if c3 = '\x7d' then some ([(key, v)], cs5)
                  else none
              | none => none
            else none
        | none => none
      else none

/-- A string parses as a well-formed object of the JSON fragment when it is a
brace-delimited list of zero or more members and nothing else. -/
def parseJsonObject (s : String) : Option (List (String × JVal)) :=
  match skipSpaces s.data with
  | [] => none
  | c :: cs =>
    if c = '\x7b' then
      match skipSpaces cs with
      | [] => none
      | c2 :: cs2 =>
        if c2 = '\x7d' then (if (skipSpaces cs2).isEmpty then some [] else none)
        else
          match parseMembers (s.data.length + 1) cs with
          | some (ms, rest) => if (skipSpaces rest).isEmpty then some ms else none
          | none => none
    else none

/-- Spec-side (§4.4): canonical serialization of one attribute value. -/
def specSerializeJVal : JVal → String
  | .num n => toString n
  | .str s => "\"" ++ s ++ "\""
  | .bool b => if b then "true" else "false"

/-- Spec-side: one `"key":value` member. -/
def specSerializeMember : String × JVal → String
  | (k, v) => "\"" ++ k ++ "\":" ++ specSerializeJVal v

/-- Spec-side: members joined by commas. -/
def specSerializeMembers : List (String × JVal) → String
  | [] => ""
  | [m] => specSerializeMember m
  | m :: ms => specSerializeMember m ++ "," ++ specSerializeMembers ms

/-- Spec-side (§4.4): "a single new field named `<prefix>` whose value is a
serialized JSON object containing all non-absent attributes", members in the
extractor-defined fixed order. -/
def specSerializeObject (ms : List (String × JVal)) : String :=
  "\x7b" ++ specSerializeMembers ms ++ "\x7d"

/-- Spec-side (§4.3): the non-absent ISP attributes, in the extractor's fixed
order. -/
def specIspAttributes (r : ISPRecord) : List (String × JVal) :=
  (if r.AutonomousSystemNumber ≠ 0 then
     [("asnum", JVal.num r.AutonomousSystemNumber)] else [])
  ++ (if r.AutonomousSystemOrganization ≠ "" then
        [("asname", JVal.str r.AutonomousSystemOrganization)] else [])
  ++ (if r.ISP ≠ "" then [("isp", JVal.str r.ISP)] else [])
  ++ (if r.Organization ≠ "" then [("organization", JVal.str r.Organization)] else [])

/-- Spec-side (§4.3): the anonymous-IP flags that are set, in the extractor's
fixed order. -/
def specAnonAttributes (r : AnonymousIPRecord) : List (String × JVal) :=
  (if r.IsAnonymous then [("anonymous_ip", JVal.bool true)] else [])
  ++ (if r.IsAnonymousVPN then [("anonymous_vpn", JVal.bool true)] else [])
  ++ (if r.IsHostingProvider then [("hosting_provider", JVal.bool true)] else [])
  ++ (if r.IsPublicProxy then [("public_proxy", JVal.bool true)] else [])
  ++ (if r.IsTorExitNode then [("tor_exit_node", JVal.bool true)] else [])

/-- Spec-side (§4.4 flat shape): how one attribute is rendered as a flat
field, the numeric attribute passing through `GetData`. -/
def specFlatField : String × JVal → Field
  | (k, .num n) => ⟨k, FieldVal.int (GetData n)⟩
  | (k, .str s) => ⟨k, FieldVal.str s⟩
  | (k, .bool b) => ⟨k, FieldVal.boolean b⟩

/-- The flat-shape naming convention of the spec: the configured target-field
name followed by an underscore begins the emitted field name. -/
def prefixedBy (tf name : String) : Bool :=
  List.isPrefixOf (tf ++ "_").data name.data

/-! ### Fixtures used by witnesses and concrete evaluations. -/

/-- A flat-shape decoder over target field `geoip`, literal-IP mode. -/
def flatDecoder : GeoIp2Decoder := ⟨["remote_addr"], "geoip", "en", false, false⟩

/-- A JSON-shape decoder over target field `geoip`, literal-IP mode. -/
def jsonDecoder : GeoIp2Decoder := ⟨["remote_addr"], "geoip", "en", true, false⟩

/-- An input message carrying one literal address field. -/
def baseMessage : Message := ⟨[⟨"remote_addr", FieldVal.str "203.0.113.9"⟩]⟩

/-- An environment with no databases configured; fixtures override single
fields of it. -/
def emptyEnv : Env :=
  { parseIP := fun _ => some 0
    lookupIP := fun _ => .error ()
    anon_db := none
    city_db := none
    conn_db := none
    isp_db := none
    formatFloat := fun _ => "0" }

/-- Environment where the only configured database is ISP and every lookup
returns a non-nil error together with the zero-valued record (what the
`geoip2` reader hands back on a failed lookup). -/
def ispErrorEnv : Env :=
  { emptyEnv with isp_db := some (fun _ => ⟨⟨0, "", "", ""⟩, true⟩) }

/-- A configuration with no candidate address fields and no target field. -/
def missingRequiredConfig : GeoIp2DecoderConfig :=
  ⟨"", "", "", "", [], "", "en", false, false⟩

/-- A configuration whose only database path is the ISP one. -/
def ispOnlyConfig : GeoIp2DecoderConfig :=
  ⟨"", "", "", "GeoIP2-ISP.mmdb", ["remote_addr"], "geoip", "en", false, false⟩

/-- A DNS-mode decoder with two candidate fields. -/
def dnsDecoder : GeoIp2Decoder :=
  ⟨["remote_addr", "other_field"], "geoip", "en", false, true⟩

/-- Environment whose resolver answers every host with a nil error and an
empty address list. -/
def emptyListDnsEnv : Env := { emptyEnv with lookupIP := fun _ => .ok [] }

/-- A message offering both candidate fields. -/
def twoFieldMessage : Message :=
  ⟨[⟨"remote_addr", FieldVal.str "host.example"⟩,
    ⟨"other_field", FieldVal.str "198.51.100.7"⟩]⟩

/-- Environment whose resolver errors on every host. -/
def dnsErrorEnv : Env := { emptyEnv with lookupIP := fun _ => .error () }

/-- Environment with only a connection-type database that matches. -/
def connOnlyEnv : Env :=
  { emptyEnv with conn_db := some (fun _ => ⟨⟨"cable"⟩, false⟩) }

/-- A two-candidate decoder whose second field is a decoy. -/
def decoyDecoder : GeoIp2Decoder :=
  ⟨["remote_addr", "decoy"], "geoip", "en", false, false⟩

/-- A message where the decoy field holds a value that would resolve. -/
def decoyMessage : Message :=
  ⟨[⟨"remote_addr", FieldVal.str "198.51.100.7"⟩,
    ⟨"decoy", FieldVal.str "192.0.2.1"⟩]⟩

/-- A city lookup returning latitude 0 (equator), longitude 17. -/
def equatorCityDb : IP → LookupResult CityRecord :=
  fun _ => ⟨⟨"US", fun _ => "United States", fun _ => "Springfield", 0, 17⟩, false⟩

/-- Environment with only the equator-point city database. -/
def cityEquatorEnv : Env := { emptyEnv with city_db := some equatorCityDb }

/-- An anonymous-IP lookup with only the is-anonymous flag set. -/
def anonFlagDb : IP → LookupResult AnonymousIPRecord :=
  fun _ => ⟨⟨true, false, false, false, false⟩, false⟩

/-- A connection-type lookup answering `cable`. -/
def cableConnDb : IP → LookupResult ConnectionTypeRecord :=
  fun _ => ⟨⟨"cable"⟩, false⟩

/-- Both the anonymous-IP and connection-type databases match. -/
def anonConnEnv : Env :=
  { emptyEnv with anon_db := some anonFlagDb, conn_db := some cableConnDb }

/-! ### Claims -/

/-- C1: the claim says an errored ISP lookup is reported as `found = false`,
is not treated as a match, and writes no ISP fields.  The source condition is
`err != nil || (...)`, so on a lookup error the decoder instead sets
`found = true` and calls `CreateMessageFieldsISP` with the zero-valued
record: in JSON shape it appends a `geoip` field holding the empty object.
This theorem evaluates the code at that failing input. -/
theorem c1_isp_error_treated_as_found :
    Decode jsonDecoder ispErrorEnv baseMessage =
      some ⟨[⟨"remote_addr", FieldVal.str "203.0.113.9"⟩,
             ⟨"geoip", FieldVal.bytes "\x7b\x7d"⟩]⟩ := rfl

/-- C3: the claim says `Init` returns an error when the candidate-field list
or the target prefix is empty.  The source merely passes the two complaint
errors to `LogError` and falls through, so `Init` returns a nil error and the
decoder starts.  This theorem evaluates the code at that failing input. -/
theorem c3_init_missing_config_returns_nil :
    (Init missingRequiredConfig ⟨true, true, true, true⟩).err = false ∧
    (Init missingRequiredConfig ⟨true, true, true, true⟩).logs =
      ["At least one source address field must be specified.",
       "target_field must be specified"] := ⟨rfl, rfl⟩

/-- C4: the claim says a database path that fails to open never makes `Init`
return an error.  The shared `err` variable is only overwritten by a *later*
`geoip2.Open` call, so when the failing database is the last one attempted
its open error is returned from `Init` (aborting startup) even though the
logged message says "skipping".  This theorem evaluates the code at that
failing input: only the ISP database is configured, its open fails, and
`Init` returns a non-nil error. -/
theorem c4_init_open_failure_returns_error :
    (Init ispOnlyConfig ⟨true, true, true, false⟩).err = true ∧
    (Init ispOnlyConfig ⟨true, true, true, false⟩).isp_db = false ∧
    (Init ispOnlyConfig ⟨true, true, true, false⟩).logs =
      ["Could not open GeoIP2-ISP database, skipping"] := ⟨rfl, rfl, rfl⟩

/-- C5 counterexample: with a resolver returning a nil error and an empty
list for the first candidate, the claim predicts the candidate is skipped and
the loop moves on (result `some _`); the code instead reaches `ips[0]` on the
empty slice, an out-of-bounds access modelled as `none`. -/
theorem c5_counterexample :
    Decode dnsDecoder emptyListDnsEnv twoFieldMessage = none := rfl

/-- C5 (amended): in DNS mode a resolver error skips to the next candidate
field (soft failure); a successful resolution is consumed through its first
element unconditionally, the rest discarded — so an empty, error-free result
list is not treated as "no address" but reaches the out-of-bounds
first-element access (modelled as `none`). -/
theorem c5_dns_resolution_outcomes (gi2 : GeoIp2Decoder) (env : Env)
    (f host : String) (found : Bool) (msg : Message) (rest : List String)
    (hdns : gi2.DNSLookup = true)
    (hread : msg.getFieldValue f = some (FieldVal.str host)) :
    (∀ e, env.lookupIP host = .error e →
        decodeLoop gi2 env (f :: rest) found msg = decodeLoop gi2 env rest found msg)
    ∧ (env.lookupIP host = .ok [] →
        decodeLoop gi2 env (f :: rest) found msg = none)
    ∧ (∀ ip tl, env.lookupIP host = .ok (ip :: tl) →
        decodeLoop gi2 env (f :: rest) found msg =
          (if (runDatabases gi2 env ip (found, msg)).1 then
            some (runDatabases gi2 env ip (found, msg)).2
          else decodeLoop gi2 env rest (runDatabases gi2 env ip (found, msg)).1
                 (runDatabases gi2 env ip (found, msg)).2)) := by
  refine ⟨fun e he => ?_, fun he => ?_, fun ip tl he => ?_⟩ <;>
    simp [decodeLoop, hread, resolveHost, hdns, he]

/-- C5 witness: the resolver-error arm of the amended claim at a concrete
input. -/
theorem c5_dns_resolution_outcomes_witness :
    decodeLoop dnsDecoder dnsErrorEnv ["remote_addr"] false twoFieldMessage =
      decodeLoop dnsDecoder dnsErrorEnv [] false twoFieldMessage :=
  (c5_dns_resolution_outcomes dnsDecoder dnsErrorEnv "remote_addr" "host.example"
    false twoFieldMessage [] rfl rfl).1 () rfl

/-- C6: once a candidate field's value is read as a string, resolves to an
address, and the database blocks leave `found = true`, the whole invocation's
result is `some msg2` whatever the remaining candidate list is — later
candidate fields are never read or resolved. -/
theorem c6_short_circuit (gi2 : GeoIp2Decoder) (env : Env) (f host : String)
    (ip : IP) (found : Bool) (msg msg2 : Message) (rest : List String)
    (hread : msg.getFieldValue f = some (FieldVal.str host))
    (hres : resolveHost gi2 env host = .addr ip)
    (hrun : runDatabases gi2 env ip (found, msg) = (true, msg2)) :
    decodeLoop gi2 env (f :: rest) found msg = some msg2 := by
  simp [decodeLoop, hread, hres, hrun]

/-- C6 witness: the first candidate matches in the connection-type database,
and the invocation ends there with the decoy field unconsulted. -/
theorem c6_short_circuit_witness :
    decodeLoop decoyDecoder connOnlyEnv ["remote_addr", "decoy"] false decoyMessage =
      some ⟨decoyMessage.fields ++ [⟨"connection_type", FieldVal.str "cable"⟩]⟩ :=
  c6_short_circuit decoyDecoder connOnlyEnv "remote_addr" "198.51.100.7" 0 false
    decoyMessage ⟨decoyMessage.fields ++ [⟨"connection_type", FieldVal.str "cable"⟩]⟩
    ["decoy"] rfl rfl (by decide)

/-- C8: for an ISP record whose autonomous-system number is 4294967295 (max
32-bit unsigned), the flat-shape `asnum` field carries exactly 4294967295:
`GetData`'s unsigned-to-signed reinterpretation at the output boundary does
not wrap (4294967295 is far below the 64-bit sign threshold). -/
theorem c8_asnum_no_wrap (gi2 : GeoIp2Decoder) (r : ISPRecord)
    (hflat : gi2.JSONObject = false)
    (h : r.AutonomousSystemNumber = 4294967295) :
    (CreateMessageFieldsISP gi2 r).head? = some ⟨"asnum", FieldVal.int 4294967295⟩ := by
  simp [CreateMessageFieldsISP, hflat, h, GetData]

/-- C8 witness: the theorem at a concrete record. -/
theorem c8_asnum_no_wrap_witness :
    (CreateMessageFieldsISP flatDecoder ⟨4294967295, "", "", ""⟩).head? =
      some ⟨"asnum", FieldVal.int 4294967295⟩ :=
  c8_asnum_no_wrap flatDecoder ⟨4294967295, "", "", ""⟩ rfl rfl

/-- C9: the city block takes its branch only when longitude *and* latitude
are both non-zero, so a record with exactly one zero coordinate (a valid
point on the equator or prime meridian) leaves `found` and the message
untouched — strictly stronger filtering than the spec's all-zero-pair
sentinel. -/
theorem c9_city_requires_both_coordinates (gi2 : GeoIp2Decoder) (env : Env)
    (ip : IP) (found : Bool) (msg : Message)
    (db : IP → LookupResult CityRecord) (hdb : env.city_db = some db)
    (h : ((db ip).record.Latitude = 0 ∧ (db ip).record.Longitude ≠ 0) ∨
         ((db ip).record.Longitude = 0 ∧ (db ip).record.Latitude ≠ 0)) :
    runCityBranch gi2 env ip (found, msg) = (found, msg) := by
  rcases h with ⟨h1, _h2⟩ | ⟨h1, _h2⟩ <;> simp [runCityBranch, hdb, h1]

/-- C9 witness: the theorem at a concrete equator-point record. -/
theorem c9_city_requires_both_coordinates_witness :
    runCityBranch flatDecoder cityEquatorEnv 0 (false, baseMessage) = (false, baseMessage) :=
  c9_city_requires_both_coordinates flatDecoder cityEquatorEnv 0 false baseMessage
    equatorCityDb rfl (Or.inl ⟨rfl, by decide⟩)

/-- C10: in JSON shape, when both the anonymous-IP and the connection-type
databases produce `found = true` for the same candidate, each extractor
appends its own field named exactly the target prefix: the result carries two
separate fields with the identical name, one JSON blob per database kind,
never merged. -/
theorem c10_duplicate_target_fields (gi2 : GeoIp2Decoder) (env : Env)
    (f host : String) (ip : IP) (msg : Message) (rest : List String)
    (aDb : IP → LookupResult AnonymousIPRecord)
    (cDb : IP → LookupResult ConnectionTypeRecord)
    (hjson : gi2.JSONObject = true)
    (hread : msg.getFieldValue f = some (FieldVal.str host))
    (hres : resolveHost gi2 env host = .addr ip)
    (hanon : env.anon_db = some aDb)
    (haerr : (aDb ip).errored = false)
    (haflag : (aDb ip).record.IsAnonymous = true)
    (hcity : env.city_db = none) (hisp : env.isp_db = none)
    (hconn : env.conn_db = some cDb)
    (hcerr : (cDb ip).errored = false)
    (hct : (cDb ip).record.ConnectionType ≠ "") :
    decodeLoop gi2 env (f :: rest) false msg =
      some ⟨msg.fields ++
        [⟨gi2.TargetField, FieldVal.bytes (anonJsonBlob (aDb ip).record)⟩,
         ⟨gi2.TargetField, FieldVal.bytes (connJsonBlob (cDb ip).record)⟩]⟩ := by
  simp [decodeLoop, hread, hres, runDatabases, runAnonBranch, runCityBranch,
        runConnBranch, runIspBranch, hanon, hcity, hconn, hisp, haerr, haflag, hct,
        hcerr, CreateMessageFieldsAnonymousIP, CreateMessageFieldsConnectionType,
        hjson, Message.addFields]

/-- C10 witness: the theorem at concrete records; the two appended fields
share the name `geoip`. -/
theorem c10_duplicate_target_fields_witness :
    decodeLoop jsonDecoder anonConnEnv ["remote_addr"] false baseMessage =
      some ⟨baseMessage.fields ++
        [⟨"geoip", FieldVal.bytes (anonJsonBlob ⟨true, false, false, false, false⟩)⟩,
         ⟨"geoip", FieldVal.bytes (connJsonBlob ⟨"cable"⟩)⟩]⟩ :=
  c10_duplicate_target_fields jsonDecoder anonConnEnv "remote_addr" "203.0.113.9" 0
    baseMessage [] anonFlagDb cableConnDb rfl rfl rfl rfl rfl rfl rfl rfl rfl rfl
    (by decide)

theorem prefixedBy_append (tf a : String) : prefixedBy tf (tf ++ "_" ++ a) = true := by
  have h : (tf ++ "_" ++ a).data = (tf ++ "_").data ++ a.data := by
    simp [String.data_append]
  simp [prefixedBy, h, List.isPrefixOf_iff_prefix, List.prefix_append]

theorem mem_ite_singleton {α : Type} {c : Prop} [Decidable c] {x y : α}
    (h : x ∈ (if c then [y] else [])) : x = y := by
  split at h
  · simpa using h
  · simp at h

theorem prefixedBy_city_name (tf a b : String) (h : ("_" : String) ++ a = b) :
    prefixedBy tf (tf ++ b) = true := by
  subst h
  have h2 := prefixedBy_append tf a
  rwa [String.append_assoc] at h2

/-- C2 counterexample: with flat shape and prefix `geoip`, the
connection-type extractor emits the field name `connection_type`, which does
not begin with `geoip_`: flat-mode fields are not all prefixed with the
configured target field name. -/
theorem c2_counterexample :
    CreateMessageFieldsConnectionType flatDecoder ⟨"cable"⟩ =
      [⟨"connection_type", FieldVal.str "cable"⟩]
    ∧ prefixedBy flatDecoder.TargetField "connection_type" = false :=
  ⟨rfl, by decide⟩

/-- C2 (amended): in flat shape only the City extractor names its fields with
the configured prefix (`<prefix>_location`, `<prefix>_country_code`,
`<prefix>_country`, `<prefix>_city`); the ISP, AnonymousIP and ConnectionType
extractors emit fixed bare attribute names, independent of the prefix. -/
theorem c2_flat_field_names (gi2 : GeoIp2Decoder) (fmtFloat : Rat → String)
    (cr : CityRecord) (ir : ISPRecord) (ar : AnonymousIPRecord)
    (tr : ConnectionTypeRecord) (hflat : gi2.JSONObject = false) :
    (∀ f ∈ CreateMessageFieldsCity gi2 fmtFloat cr,
        prefixedBy gi2.TargetField f.name = true)
    ∧ (∀ f ∈ CreateMessageFieldsISP gi2 ir,
        f.name ∈ ["asnum", "asname", "isp", "organization"])
    ∧ (∀ f ∈ CreateMessageFieldsAnonymousIP gi2 ar,
        f.name ∈ ["anonymous_ip", "anonymous_vpn", "hosting_provider",
                  "public_proxy", "tor_exit_node"])
    ∧ (∀ f ∈ CreateMessageFieldsConnectionType gi2 tr,
        f.name = "connection_type") := by
  refine ⟨?_, ?_, ?_, ?_⟩
  · intro f hf
    simp only [CreateMessageFieldsCity, hflat, Bool.false_eq_true, if_false,
      List.append_assoc, List.mem_append, List.mem_singleton] at hf
    rcases hf with hf | hf | hf | hf
    · subst hf
      exact prefixedBy_city_name _ "location" "_location" rfl
    · rw [mem_ite_singleton hf]
      exact prefixedBy_city_name _ "country_code" "_country_code" rfl
    · rw [mem_ite_singleton hf]
      exact prefixedBy_city_name _ "country" "_country" rfl
    · rw [mem_ite_singleton hf]
      exact prefixedBy_city_name _ "city" "_city" rfl
  · intro f hf
    simp only [CreateMessageFieldsISP, hflat, Bool.false_eq_true, if_false,
      List.append_assoc, List.mem_append] at hf
    rcases hf with hf | hf | hf | hf <;> rw [mem_ite_singleton hf] <;> simp
  · intro f hf
    simp only [CreateMessageFieldsAnonymousIP, hflat, Bool.false_eq_true, if_false,
      List.append_assoc, List.mem_append] at hf
    rcases hf with hf | hf | hf | hf | hf <;> rw [mem_ite_singleton hf] <;> simp
  · intro f hf
    simp only [CreateMessageFieldsConnectionType, hflat, Bool.false_eq_true,
      if_false] at hf
    rw [mem_ite_singleton hf]

/-- C2 witness: the amended theorem at concrete records, projected to the
connection-type conjunct at its emitted field. -/
theorem c2_flat_field_names_witness :
    Field.name ⟨"connection_type", FieldVal.str "cable"⟩ = "connection_type" :=
  (c2_flat_field_names flatDecoder (fun _ => "0")
      ⟨"US", fun _ => "United States", fun _ => "Springfield", 10, 20⟩
      ⟨1, "", "", ""⟩ ⟨true, false, false, false, false⟩ ⟨"cable"⟩ rfl).2.2.2
    ⟨"connection_type", FieldVal.str "cable"⟩ (by decide)

theorem commaFoldAsname (x : String) :
    x ++ "," ++ "\"asname\":\"" = x ++ ",\"asname\":\"" := by
  rw [String.append_assoc]; rfl

theorem commaFoldIsp (x : String) :
    x ++ "," ++ "\"isp\":\"" = x ++ ",\"isp\":\"" := by
  rw [String.append_assoc]; rfl

theorem commaFoldOrg (x : String) :
    x ++ "," ++ "\"organization\":\"" = x ++ ",\"organization\":\"" := by
  rw [String.append_assoc]; rfl

/-- The code's ISP blob coincides with the spec's canonical serialization of
the non-absent attributes exactly when the first slot (the AS number) is
present or nothing at all is. -/
theorem ispBlob_serializes (r : ISPRecord)
    (h : r.AutonomousSystemNumber ≠ 0 ∨
      (r.AutonomousSystemOrganization = "" ∧ r.ISP = "" ∧ r.Organization = "")) :
    ispJsonBlob r = specSerializeObject (specIspAttributes r) := by
  rcases h with h1 | ⟨h2, h3, h4⟩
  · by_cases h2 : r.AutonomousSystemOrganization = "" <;>
    by_cases h3 : r.ISP = "" <;> by_cases h4 : r.Organization = "" <;>
      simp [ispJsonBlob, specIspAttributes, specSerializeObject, specSerializeMembers,
        specSerializeMember, specSerializeJVal, h1, h2, h3, h4,
        ← String.append_assoc, String.append_empty, String.empty_append,
        commaFoldAsname, commaFoldIsp, commaFoldOrg]
  · by_cases h1 : r.AutonomousSystemNumber = 0 <;>
      simp [ispJsonBlob, specIspAttributes, specSerializeObject, specSerializeMembers,
        specSerializeMember, specSerializeJVal, h1, h2, h3, h4,
        ← String.append_assoc, String.append_empty, String.empty_append,
        commaFoldAsname, commaFoldIsp, commaFoldOrg]

/-- A string whose characters start with a brace and then a comma is not a
well-formed JSON object. -/
theorem parseJsonObject_brace_comma (s : String) (tl : List Char)
    (h : s.data = '\x7b' :: ',' :: tl) : parseJsonObject s = none := by
  simp +decide [parseJsonObject, h, skipSpaces, parseMembers]

theorem dataLbrace : ("\x7b" : String).data = ['\x7b'] := rfl

theorem dataCommaAsname :
    (",\"asname\":\"" : String).data = ',' :: ("\"asname\":\"" : String).data := rfl

theorem dataCommaIsp :
    (",\"isp\":\"" : String).data = ',' :: ("\"isp\":\"" : String).data := rfl

theorem dataCommaOrg :
    (",\"organization\":\"" : String).data =
      ',' :: ("\"organization\":\"" : String).data := rfl

theorem dataCommaAnon :
    (",\"anonymous_ip\": true," : String).data =
      ',' :: ("\"anonymous_ip\": true," : String).data := rfl

theorem dataCommaVpn :
    (",\"anonymous_vpn\": true" : String).data =
      ',' :: ("\"anonymous_vpn\": true" : String).data := rfl

theorem dataCommaHosting :
    (",\"hosting_provider\": true" : String).data =
      ',' :: ("\"hosting_provider\": true" : String).data := rfl

theorem dataCommaProxy :
    (",\"public_proxy\": true" : String).data =
      ',' :: ("\"public_proxy\": true" : String).data := rfl

theorem dataCommaTor :
    (",\"tor_exit_node\": true" : String).data =
      ',' :: ("\"tor_exit_node\": true" : String).data := rfl

theorem parseJsonObject_heads_none (s : String)
    (h1 : s.data.head? = some '\x7b') (h2 : s.data.tail.head? = some ',') :
    parseJsonObject s = none := by
  match hs : s.data with
  | [] => rw [hs] at h1; simp at h1
  | [c] => rw [hs] at h2; simp at h2
  | c :: c2 :: tl =>
    rw [hs] at h1 h2
    simp at h1 h2
    subst h1; subst h2
    exact parseJsonObject_brace_comma s tl hs

/-- With the AS number absent and any later attribute present, the ISP blob
opens with a stray comma and fails to parse. -/
theorem ispBlob_unparseable (r : ISPRecord)
    (h0 : r.AutonomousSystemNumber = 0)
    (h : ¬(r.AutonomousSystemOrganization = "" ∧ r.ISP = "" ∧ r.Organization = "")) :
    parseJsonObject (ispJsonBlob r) = none := by
  apply parseJsonObject_heads_none <;>
  · by_cases h2 : r.AutonomousSystemOrganization = "" <;>
    by_cases h3 : r.ISP = "" <;> by_cases h4 : r.Organization = "" <;>
      first
      | (simp [ispJsonBlob, h0, h2, h3, h4, String.data_append, dataLbrace,
           dataCommaAsname, dataCommaIsp, dataCommaOrg]
         done)
      | exact absurd ⟨h2, h3, h4⟩ h

/-- With every flag off, the anonymous-IP blob is the empty object, which is
also the canonical serialization of the empty attribute list. -/
theorem anonBlob_empty (r : AnonymousIPRecord)
    (h : r.IsAnonymous = false ∧ r.IsAnonymousVPN = false ∧ r.IsHostingProvider = false ∧
         r.IsPublicProxy = false ∧ r.IsTorExitNode = false) :
    anonJsonBlob r = specSerializeObject (specAnonAttributes r) := by
  obtain ⟨h1, h2, h3, h4, h5⟩ := h
  simp [anonJsonBlob, specAnonAttributes, specSerializeObject, specSerializeMembers,
    h1, h2, h3, h4, h5, String.append_empty, String.empty_append]

/-- Every anonymous-IP entry is written with a leading comma, so any set flag
leaves the blob unparseable. -/
theorem anonBlob_unparseable (r : AnonymousIPRecord)
    (h : r.IsAnonymous = true ∨ r.IsAnonymousVPN = true ∨ r.IsHostingProvider = true ∨
         r.IsPublicProxy = true ∨ r.IsTorExitNode = true) :
    parseJsonObject (anonJsonBlob r) = none := by
  apply parseJsonObject_heads_none <;>
  · by_cases h1 : r.IsAnonymous = true <;> by_cases h2 : r.IsAnonymousVPN = true <;>
    by_cases h3 : r.IsHostingProvider = true <;> by_cases h4 : r.IsPublicProxy = true <;>
    by_cases h5 : r.IsTorExitNode = true <;>
      first
      | (simp [anonJsonBlob, h1, h2, h3, h4, h5, String.data_append, dataLbrace,
           dataCommaAnon, dataCommaVpn, dataCommaHosting, dataCommaProxy, dataCommaTor]
         done)
      | simp [h1, h2, h3, h4, h5] at h

/-- The flat-shape ISP fields realize exactly the spec's non-absent attribute
list. -/
theorem ispFlat_spec (gi2 : GeoIp2Decoder) (r : ISPRecord)
    (hflat : gi2.JSONObject = false) :
    CreateMessageFieldsISP gi2 r = (specIspAttributes r).map specFlatField := by
  by_cases h1 : r.AutonomousSystemNumber = 0 <;>
  by_cases h2 : r.AutonomousSystemOrganization = "" <;>
  by_cases h3 : r.ISP = "" <;> by_cases h4 : r.Organization = "" <;>
    simp [CreateMessageFieldsISP, specIspAttributes, specFlatField, hflat, h1, h2, h3, h4]

/-- The flat-shape anonymous-IP fields realize exactly the spec's non-absent
attribute list. -/
theorem anonFlat_spec (gi2 : GeoIp2Decoder) (r : AnonymousIPRecord)
    (hflat : gi2.JSONObject = false) :
    CreateMessageFieldsAnonymousIP gi2 r = (specAnonAttributes r).map specFlatField := by
  by_cases h1 : r.IsAnonymous = true <;> by_cases h2 : r.IsAnonymousVPN = true <;>
  by_cases h3 : r.IsHostingProvider = true <;> by_cases h4 : r.IsPublicProxy = true <;>
  by_cases h5 : r.IsTorExitNode = true <;>
    simp [CreateMessageFieldsAnonymousIP, specAnonAttributes, specFlatField, hflat,
      h1, h2, h3, h4, h5]

/-- C7 counterexample: for the ISP record with absent AS number and ISP name
`Comcast`, JSON shape emits the single `geoip` field, but its bytes carry a
stray leading comma after the opening brace and do not parse as a well-formed
JSON object. -/
theorem c7_counterexample :
    CreateMessageFieldsISP jsonDecoder ⟨0, "", "Comcast", ""⟩ =
      [⟨"geoip", FieldVal.bytes (ispJsonBlob ⟨0, "", "Comcast", ""⟩)⟩]
    ∧ parseJsonObject (ispJsonBlob ⟨0, "", "Comcast", ""⟩) = none := ⟨rfl, by decide⟩

/-- C7 (amended): for a fixed ISP or anonymous-IP record, JSON shape writes a
single field named exactly the target prefix, and the blob admits the same
attributes under the same non-absence gates that flat shape renders (both
shapes realize `specIspAttributes`/`specAnonAttributes`).  The bytes equal
the canonical JSON-object serialization of that attribute list only when no
stray comma arises — for ISP when the AS number is present or no attribute
is, for AnonymousIP when no flag is set; in the remaining cases the
concatenation places a comma right after the opening brace and the bytes do
not parse as a JSON object. -/
theorem c7_shape_equivalence (gi2 : GeoIp2Decoder) (ri : ISPRecord)
    (ra : AnonymousIPRecord) (hjson : gi2.JSONObject = true) :
    CreateMessageFieldsISP gi2 ri =
      [⟨gi2.TargetField, FieldVal.bytes (ispJsonBlob ri)⟩]
    ∧ CreateMessageFieldsAnonymousIP gi2 ra =
      [⟨gi2.TargetField, FieldVal.bytes (anonJsonBlob ra)⟩]
    ∧ (ri.AutonomousSystemNumber ≠ 0 ∨
        (ri.AutonomousSystemOrganization = "" ∧ ri.ISP = "" ∧ ri.Organization = "") →
        ispJsonBlob ri = specSerializeObject (specIspAttributes ri))
    ∧ (ri.AutonomousSystemNumber = 0 →
        ¬(ri.AutonomousSystemOrganization = "" ∧ ri.ISP = "" ∧ ri.Organization = "") →
        parseJsonObject (ispJsonBlob ri) = none)
    ∧ (ra.IsAnonymous = false ∧ ra.IsAnonymousVPN = false ∧
        ra.IsHostingProvider = false ∧ ra.IsPublicProxy = false ∧
        ra.IsTorExitNode = false →
        anonJsonBlob ra = specSerializeObject (specAnonAttributes ra))
    ∧ (ra.IsAnonymous = true ∨ ra.IsAnonymousVPN = true ∨
        ra.IsHostingProvider = true ∨ ra.IsPublicProxy = true ∨
        ra.IsTorExitNode = true →
        parseJsonObject (anonJsonBlob ra) = none)
    ∧ (∀ gi2f : GeoIp2Decoder, gi2f.JSONObject = false →
        CreateMessageFieldsISP gi2f ri = (specIspAttributes ri).map specFlatField
        ∧ CreateMessageFieldsAnonymousIP gi2f ra =
            (specAnonAttributes ra).map specFlatField) := by
  refine ⟨?_, ?_, ispBlob_serializes ri, ispBlob_unparseable ri,
          anonBlob_empty ra, anonBlob_unparseable ra,
          fun gi2f hf => ⟨ispFlat_spec gi2f ri hf, anonFlat_spec gi2f ra hf⟩⟩
  · simp [CreateMessageFieldsISP, hjson]
  · simp [CreateMessageFieldsAnonymousIP, hjson]

/-- C7 witness: the amended theorem at concrete records, projected to the
serialization conjunct for an ISP record whose AS number is present. -/
theorem c7_shape_equivalence_witness :
    ispJsonBlob ⟨701, "UUNET", "Verizon", ""⟩ =
      specSerializeObject (specIspAttributes ⟨701, "UUNET", "Verizon", ""⟩) :=
  ((c7_shape_equivalence jsonDecoder ⟨701, "UUNET", "Verizon", ""⟩
      ⟨false, false, false, false, false⟩ rfl).2.2.1) (Or.inl (by decide))

end GeoIp2
